import Mathlib

/-!
Shallow embedding of the `core` logging facade from `include/Logger.h` and
`src/Logger.cpp` (namespace `core`): the `LogLevel` enum, the `LogEntry`
protobuf record (only the fields the code sets), the `Logger` class state and
its `log`/`createEntry`/`outputLocal`/`publish` methods, the `LogStream`
builder, the `GlobalLogger` singleton, and the suppression macros
(`LOG_EVERY_N_IMPL`, `LOG_CHANGED_IMPL`, `LOG_THROTTLE_IMPL`) as explicit
per-call-site state machines.

Modelling conventions:
- the transport callback `publish_callback_` is an external injected function;
  the model records only its presence (`publish_callback : Bool`, the value of
  `publish_callback_ != nullptr`) and whether/with which entry it is invoked;
- `gettimeofday` is an external input: `log` takes the wall-clock stamp as an
  argument;
- `localtime` is modelled with a zero UTC offset (the timezone is environment
  state); the claims under study do not depend on the offset;
- `seq_` is `uint32_t`, so it advances modulo 2^32;
- the C++ iostream chain in `outputLocal` is modelled by a small `OStream`
  state (accumulated text, sticky fill character, one-shot field width,
  default right-justification), mirroring `std::cerr` formatting semantics;
- `steady_clock` times in the throttle macro are integer millisecond ticks.
-/

namespace core

/-- `enum class LogLevel` from Logger.h. -/
inductive LogLevel where
  | DEBUG
  | INFO
  | WARN
  | ERROR
  | FATAL
deriving DecidableEq, Repr

/-- The underlying integral value of the `LogLevel` enumerator (DEBUG = 0 ... FATAL = 4);
`enum class` comparisons in the C++ code compare these values. -/
def LogLevel.toNat : LogLevel → Nat
  | .DEBUG => 0
  | .INFO => 1
  | .WARN => 2
  | .ERROR => 3
  | .FATAL => 4

/-- `logLevelToString` from Logger.h. -/
def logLevelToString : LogLevel → String
  | .DEBUG => "DEBUG"
  | .INFO => "INFO"
  | .WARN => "WARN"
  | .ERROR => "ERROR"
  | .FATAL => "FATAL"

/-- The `timeval` written by `gettimeofday`: seconds and microseconds. -/
structure Stamp where
  sec : Nat
  usec : Nat
deriving DecidableEq, Repr

/-- The `Header` submessage of `log_msg::LogEntry` as filled by `createEntry`. -/
structure Header where
  stamp : Stamp
  seq : Nat
  frameid : String
deriving DecidableEq, Repr

/-- The fields of `log_msg::LogEntry` that `createEntry` sets. -/
structure LogEntry where
  header : Header
  level : LogLevel
  node_name : String
  message : String
deriving DecidableEq, Repr

/-- The state of a `core::Logger` instance. `publish_callback` records
`publish_callback_ != nullptr` (the callback body is external). -/
structure Logger where
  node_name : String
  min_level : LogLevel
  local_output : Bool
  remote_output : Bool
  publish_callback : Bool
  seq : Nat
deriving DecidableEq, Repr

/-- The `Logger(node_name, publish_callback)` constructor: min level DEBUG,
local output on, remote output on exactly when the callback is non-null, seq 0. -/
def mkLogger (node_name : String) (publish_callback : Bool) : Logger :=
  { node_name := node_name
    min_level := .DEBUG
    local_output := true
    remote_output := publish_callback
    publish_callback := publish_callback
    seq := 0 }

/-- `Logger::setMinLevel`. -/
def Logger.setMinLevel (l : Logger) (level : LogLevel) : Logger :=
  { l with min_level := level }

/-- `Logger::setLocalOutput`. -/
def Logger.setLocalOutput (l : Logger) (enabled : Bool) : Logger :=
  { l with local_output := enabled }

/-- `Logger::setRemoteOutput`. -/
def Logger.setRemoteOutput (l : Logger) (enabled : Bool) : Logger :=
  { l with remote_output := enabled }

/-- `Logger::setPublishCallback`: stores the callback and sets
`remote_output_ = (callback != nullptr)`. -/
def Logger.setPublishCallback (l : Logger) (callback : Bool) : Logger :=
  { l with publish_callback := callback, remote_output := callback }

/-- `Logger::createEntry`: builds the entry (header stamp from `gettimeofday`,
`seq` from the post-incremented counter, `frameid` = node name) and advances
`seq_` (a `uint32_t`, hence modulo 2^32). Returns the entry and updated logger. -/
def Logger.createEntry (l : Logger) (level : LogLevel) (message : String)
    (tv : Stamp) : LogEntry × Logger :=
  let entry : LogEntry :=
    { header := { stamp := tv, seq := l.seq, frameid := l.node_name }
      level := level
      node_name := l.node_name
      message := message }
  (entry, { l with seq := (l.seq + 1) % 2 ^ 32 })

end core

/-! ANSI color codes from the anonymous namespace of Logger.cpp ("\033" is ESC). -/

namespace core

def RESET : String := "\x1b[0m"
def RED : String := "\x1b[31m"
def GREEN : String := "\x1b[32m"
def YELLOW : String := "\x1b[33m"
def MAGENTA : String := "\x1b[35m"
def CYAN : String := "\x1b[36m"
def WHITE : String := "\x1b[37m"
def BOLD : String := "\x1b[1m"

/-- `getLevelColor` from Logger.cpp. -/
def getLevelColor : LogLevel → String
  | .DEBUG => CYAN
  | .INFO => GREEN
  | .WARN => YELLOW
  | .ERROR => RED
  | .FATAL => MAGENTA

/-- A model of the `std::cerr` formatting state used by `outputLocal`:
accumulated output, the sticky fill character (`std::setfill`), and the
one-shot field width (`std::setw`, consumed by the next insertion). -/
structure OStream where
  out : String
  fill : Char
  width : Nat
deriving DecidableEq, Repr

/-- One `<<` insertion of a string: if the text is shorter than the pending
width it is padded on the left with the fill character (iostream default
adjustment is right-justification); the width resets to 0 afterwards, the
fill persists. -/
def OStream.put (os : OStream) (s : String) : OStream :=
  let padded :=
    if s.length < os.width then
      String.mk (List.replicate (os.width - s.length) os.fill) ++ s
    else s
  { os with out := os.out ++ padded, width := 0 }

/-- `std::setfill`. -/
def OStream.setfill (os : OStream) (c : Char) : OStream :=
  { os with fill := c }

/-- `std::setw`. -/
def OStream.setw (os : OStream) (w : Nat) : OStream :=
  { os with width := w }

/-- A fresh `std::cerr` formatting state: default fill is a space, no width. -/
def cerrInit : OStream := { out := "", fill := ' ', width := 0 }

/-- Two-digit zero-padded decimal, as `strftime` produces for %H, %M, %S. -/
def pad2 (n : Nat) : String :=
  if n < 10 then "0" ++ toString n else toString n

/-- `strftime("%H:%M:%S", localtime(sec))`, with `localtime` modelled at a
zero UTC offset: the time-of-day breakdown of the epoch second count. -/
def formatHMS (sec : Nat) : String :=
  pad2 (sec / 3600 % 24) ++ ":" ++ pad2 (sec / 60 % 60) ++ ":" ++ pad2 (sec % 60)

/-- `Logger::outputLocal`: the exact `std::cerr` insertion chain of
Logger.cpp, returning the text written to the error stream (`std::endl`
appends a newline). -/
def outputLocal (entry : LogEntry) : String :=
  (cerrInit.put "["
    |>.put (formatHMS entry.header.stamp.sec)
    |>.put "."
    |>.setfill '0'
    |>.setw 6
    |>.put (toString entry.header.stamp.usec)
    |>.put "] "
    |>.put (getLevelColor entry.level)
    |>.put BOLD
    |>.put "["
    |>.setw 5
    |>.put (logLevelToString entry.level)
    |>.put "]"
    |>.put RESET
    |>.put " "
    |>.put "["
    |>.put entry.node_name
    |>.put "] "
    |>.put entry.message
    |>.put "\n").out

/-- `Logger::publish`: invokes the callback only if it is present; the model
returns the entry handed to the callback, or `none`. -/
def Logger.publish (l : Logger) (entry : LogEntry) : Option LogEntry :=
  if l.publish_callback then some entry else none

/-- The observable effects of one `Logger::log` call: the entry it built (if
the level passed the filter), the console line written (if any), and the
entry passed to the transport callback (if invoked). -/
structure LogResult where
  entry : Option LogEntry
  console : Option String
  published : Option LogEntry
deriving DecidableEq, Repr

/-- `Logger::log`: returns early if `level < min_level_`; otherwise builds the
entry via `createEntry`, writes the console line if `local_output_`, and
invokes the callback if `remote_output_ && publish_callback_`. -/
def Logger.log (l : Logger) (level : LogLevel) (message : String)
    (tv : Stamp) : Logger × LogResult :=
  if level.toNat < l.min_level.toNat then
    (l, { entry := none, console := none, published := none })
  else
    let entry := (l.createEntry level message tv).1
    let l' := (l.createEntry level message tv).2
    let console := if l'.local_output then some (outputLocal entry) else none
    let published :=
      if l'.remote_output && l'.publish_callback then l'.publish entry else none
    (l', { entry := some entry, console := console, published := published })

/-- Runs a list of `log` calls (level, message, stamp) sequentially on one
logger, collecting each call's `LogResult`. -/
def Logger.runLogs : Logger → List (LogLevel × String × Stamp) → Logger × List LogResult
  | l, [] => (l, [])
  | l, call :: rest =>
    let step := l.log call.1 call.2.1 call.2.2
    let tail := step.1.runLogs rest
    (tail.1, step.2 :: tail.2)

/-- The sequence numbers of the records actually created by a run of `log`
calls (rejected calls create no record). -/
def entrySeqs (rs : List LogResult) : List Nat :=
  rs.filterMap (fun r => r.entry.map (fun e => e.header.seq))

/-- The state of a `core::LogStream`: bound level, accumulated
`std::ostringstream` text, and the activation flag. -/
structure LogStream where
  level : LogLevel
  ss : String
  active : Bool
deriving DecidableEq, Repr

/-- The `LogStream(logger, level)` constructor: empty buffer,
`active_ = (level >= logger.getMinLevel())`. -/
def LogStream.ofLogger (l : Logger) (level : LogLevel) : LogStream :=
  { level := level, ss := "", active := decide (l.min_level.toNat ≤ level.toNat) }

/-- `LogStream::operator<<`: appends the rendered value only when active. -/
def LogStream.append (s : LogStream) (v : String) : LogStream :=
  if s.active then { s with ss := s.ss ++ v } else s

/-- `LogStream::~LogStream`: calls `logger_.log(level_, ss_.str())` exactly
when active and the buffer is non-empty; the model returns the (level, text)
arguments of that single call, or `none` when no call is made. -/
def LogStream.destruct (s : LogStream) : Option (LogLevel × String) :=
  if s.active && !s.ss.isEmpty then some (s.level, s.ss) else none

/-- The static state of `core::GlobalLogger`: the owned logger (null before
first use) and the `initialized_` flag. -/
structure GlobalLoggerState where
  logger : Option Logger
  initialized : Bool
deriving DecidableEq, Repr

/-- The initial static state: `logger_` null, `initialized_` false. -/
def GlobalLogger.startup : GlobalLoggerState :=
  { logger := none, initialized := false }

/-- `GlobalLogger::instance`: lazily constructs `Logger("default")` if the
singleton is null, then returns it (with the possibly-updated static state). -/
def GlobalLogger.instance (g : GlobalLoggerState) : GlobalLoggerState × Logger :=
  match g.logger with
  | none =>
    let l := mkLogger "default" false
    ({ g with logger := some l }, l)
  | some l => (g, l)

/-- `GlobalLogger::init`: replaces the singleton with a freshly constructed
`Logger(node_name, publish_callback)` and sets `initialized_`. -/
def GlobalLogger.init (_g : GlobalLoggerState) (node_name : String)
    (publish_callback : Bool) : GlobalLoggerState :=
  { logger := some (mkLogger node_name publish_callback), initialized := true }

/-- `GlobalLogger::isInitialized`. -/
def GlobalLogger.isInitialized (g : GlobalLoggerState) : Bool :=
  g.initialized

/-- Applies a member call to the current singleton instance, as C++
`GlobalLogger::instance().setMinLevel(...)` does. -/
def GlobalLogger.modifyInstance (g : GlobalLoggerState) (f : Logger → Logger) :
    GlobalLoggerState :=
  let (g', l) := GlobalLogger.instance g
  { g' with logger := some (f l) }

end core

/-! The suppression macros of Logger.h, as per-call-site state machines. -/

namespace core

/-- One visit to a `LOG_EVERY_N_IMPL(logger, level, n, counter)` call site:
`if (++counter % (n) == 0) (logger).stream(level)`. The counter is a C `int`
(the values reached here stay non-negative and small, so plain `Int`
arithmetic is exact); returns the new counter and whether the gate admitted
the stream. -/
def everyNVisit (counter : Int) (n : Int) : Int × Bool :=
  (counter + 1, decide ((counter + 1) % n = 0))

/-- The gate outcomes of `K` successive visits to one every-N call site,
starting from counter value `counter`. -/
def everyNRunFrom (n : Int) (counter : Int) : Nat → List Bool
  | 0 => []
  | K + 1 => (everyNVisit counter n).2 :: everyNRunFrom n (everyNVisit counter n).1 K

/-- The gate outcomes of `K` successive visits to a fresh every-N call site
(`static int counter = 0`). -/
def everyNRun (n : Int) (K : Nat) : List Bool :=
  everyNRunFrom n 0 K

/-- The per-call-site state of `LOG_CHANGED_IMPL`: `static bool prev_state = false`. -/
structure ChangedState where
  prev_state : Bool
deriving DecidableEq, Repr

/-- The initial state of an on-change call site. -/
def changedInit : ChangedState := { prev_state := false }

/-- One visit to a `LOG_CHANGED_IMPL(logger, level, cond, prev_state)` call
site, statement by statement:
`bool _curr_state = (cond);`
`if (_curr_state && !prev_state) (logger).stream(level);`  — a complete
statement: it constructs a stream and destroys it at the semicolon with an
empty buffer (`strayStream` records whether this happened);
`prev_state = _curr_state;`
`if (_curr_state && !prev_state)` — the trailing guard to which the caller's
message would attach (`messageGate` records its value, evaluated after the
assignment to `prev_state`).
Returns (new state, strayStream, messageGate). -/
def changedVisit (st : ChangedState) (cond : Bool) : ChangedState × Bool × Bool :=
  let curr := cond
  let strayStream := curr && !st.prev_state
  let st' : ChangedState := { prev_state := curr }
  let messageGate := curr && !st'.prev_state
  (st', strayStream, messageGate)

/-- Runs a list of `cond` values through one on-change call site, collecting
each visit's (strayStream, messageGate) pair. -/
def changedRun : ChangedState → List Bool → List (Bool × Bool)
  | _, [] => []
  | st, c :: cs =>
    let (st', stray, gate) := changedVisit st c
    (stray, gate) :: changedRun st' cs

/-- One visit to a `LOG_THROTTLE_IMPL(logger, level, interval_ms, last_time)`
call site. Times are `steady_clock` instants in integer milliseconds. The
static `last_time` is initialized on the first visit to
`now - milliseconds(interval_ms)`; the gate is
`duration_cast<milliseconds>(_now - last_time).count() >= interval_ms`, and
`last_time = _now` when the gate fires. Returns (new stored time, fired). -/
def throttleVisit (interval_ms : Int) (last : Option Int) (now : Int) :
    Option Int × Bool :=
  let last_time :=
    match last with
    | none => now - interval_ms
    | some t => t
  if interval_ms ≤ now - last_time then (some now, true)
  else (some last_time, false)

/-- Runs a list of visit times through one throttle call site, threading the
stored timestamp, collecting each visit's gate outcome. -/
def throttleRunFrom (interval_ms : Int) : Option Int → List Int → Option Int × List Bool
  | st, [] => (st, [])
  | st, t :: ts =>
    let step := throttleVisit interval_ms st t
    let tail := throttleRunFrom interval_ms step.1 ts
    (tail.1, step.2 :: tail.2)

/-- Runs visit times through a fresh throttle call site (static not yet
initialized). -/
def throttleRun (interval_ms : Int) (times : List Int) : Option Int × List Bool :=
  throttleRunFrom interval_ms none times

/-- A string padded on the left with zeros to width `w`. -/
def padLeftZeros (w : Nat) (s : String) : String :=
  if s.length < w then String.mk (List.replicate (w - s.length) '0') ++ s else s

/-- A string padded on the right with spaces to width `w` (left-justified in a
`w`-character field). -/
def padRightSpaces (w : Nat) (s : String) : String :=
  if s.length < w then s ++ String.mk (List.replicate (w - s.length) ' ') else s

/-- The console line as the specification describes it: shape
`[HH:MM:SS.UUUUUU] [LEVEL] [node] message` with the microseconds zero-padded
to 6 digits and the LEVEL text LEFT-justified in a 5-character field, wrapped
in the level color plus a bold marker, reset at the closing bracket. Written
from the spec sentence, to be compared with `outputLocal` from the code. -/
def outputLocalClaimed (entry : LogEntry) : String :=
  "[" ++ formatHMS entry.header.stamp.sec ++ "." ++
    padLeftZeros 6 (toString entry.header.stamp.usec) ++ "] " ++
    getLevelColor entry.level ++ BOLD ++ "[" ++
    padRightSpaces 5 (logLevelToString entry.level) ++ "]" ++ RESET ++ " " ++
    "[" ++ entry.node_name ++ "] " ++ entry.message ++ "\n"

/-- The console line as the code actually produces it: as the claimed format,
except the LEVEL text is RIGHT-justified in the 5-character field (the
iostream default) and the padding character is the zero fill that remains
sticky from formatting the microsecond field. -/
def outputLocalAmended (entry : LogEntry) : String :=
  "[" ++ formatHMS entry.header.stamp.sec ++ "." ++
    padLeftZeros 6 (toString entry.header.stamp.usec) ++ "] " ++
    getLevelColor entry.level ++ BOLD ++ "[" ++
    padLeftZeros 5 (logLevelToString entry.level) ++ "]" ++ RESET ++ " " ++
    "[" ++ entry.node_name ++ "] " ++ entry.message ++ "\n"

end core

/-! Theorems settling the claims. -/

namespace core

/-- Claim C10: a freshly constructed Logger starts with minimum level DEBUG,
local console output enabled, remote output enabled exactly when the supplied
callback is non-null, and sequence counter 0, for every node name and callback
argument. -/
theorem c10_constructor_defaults (name : String) (cb : Bool) :
    (mkLogger name cb).min_level = LogLevel.DEBUG ∧
    (mkLogger name cb).local_output = true ∧
    (mkLogger name cb).remote_output = cb ∧
    (mkLogger name cb).seq = 0 ∧
    (mkLogger name cb).node_name = name := by
  simp [mkLogger]

/-- Claim C3 (code bug): at an on-change call site visited with cond values
[false, false, true, true, false, true], the guard to which the caller's
message attaches (evaluated after `prev_state = _curr_state`) is false on
every visit — in particular on visits 3 and 6, where the claim requires an
emission; the transition-guarded statement `(logger).stream(level);` does run
on visits 3 and 6 (first component), but it is a complete statement producing
an immediately destroyed stream with an empty buffer, whose destructor makes
no `log` call. -/
theorem c3_changed_macro_never_logs :
    changedRun changedInit [false, false, true, true, false, true] =
      [(false, false), (false, false), (true, false), (false, false),
       (false, false), (true, false)] ∧
    (LogStream.ofLogger (mkLogger "node" false) LogLevel.WARN).destruct = none := by
  decide

theorem everyNRunFrom_eq_map (n : Int) :
    ∀ (K : Nat) (c : Int), everyNRunFrom n c K =
      (List.range K).map (fun k : Nat => decide ((c + (k : Int) + 1) % n = 0)) := by
  intro K
  induction K with
  | zero => intro c; rfl
  | succ K ih =>
    intro c
    rw [List.range_succ_eq_map, List.map_cons, List.map_map]
    show decide ((c + 1) % n = 0) :: everyNRunFrom n (c + 1) K = _
    rw [ih (c + 1)]
    congr 1
    · norm_num
    · apply List.map_congr_left
      intro k _
      have hsucc : ((Nat.succ k : Nat) : Int) = (k : Int) + 1 := by push_cast; ring
      simp only [Function.comp_apply, hsucc]
      have harg : c + 1 + (k : Int) + 1 = c + ((k : Int) + 1) + 1 := by ring
      rw [harg]

/-- Claim C5: at an every-N call site with N = 3, the gate admits the stream
exactly on visits whose 1-based number is divisible by 3; concretely, 9 visits
emit on visits 3, 6, 9 and on no other. -/
theorem c5_every_n_gate :
    (∀ K : Nat, everyNRun 3 K =
      (List.range K).map (fun k : Nat => decide (((k : Int) + 1) % 3 = 0))) ∧
    everyNRun 3 9 = [false, false, true, false, false, true, false, false, true] := by
  refine ⟨fun K => ?_, by decide⟩
  have h := everyNRunFrom_eq_map 3 K 0
  simpa using h

/-- Claim C6: a throttle call site always fires on its first visit (the
stored timestamp is seeded to now minus the interval); with a 100 ms interval
and visits at t0, t0+50, t0+150 the gate fires on the first and third visit
only, and the stored timestamp ends at t0+150. -/
theorem c6_throttle_gate :
    (∀ interval t : Int, (throttleVisit interval none t).2 = true) ∧
    (∀ t0 : Int, throttleRun 100 [t0, t0 + 50, t0 + 150] =
      (some (t0 + 150), [true, false, true])) := by
  constructor
  · intro interval t
    simp [throttleVisit]
  · intro t0
    have h1 : (throttleVisit 100 none t0) = (some t0, true) := by
      simp [throttleVisit]
    have h2 : (throttleVisit 100 (some t0) (t0 + 50)) = (some t0, false) := by
      simp [throttleVisit]
    have h3 : (throttleVisit 100 (some t0) (t0 + 150)) = (some (t0 + 150), true) := by
      simp [throttleVisit]
    simp [throttleRun, throttleRunFrom, h1, h2, h3]

/-- Claim C7: a LogStream's destructor makes the single call
`log(level, text)` if and only if the stream is active and its accumulated
text is non-empty; an inactive or empty stream makes no call, and appends to
an inactive stream are discarded. -/
theorem c7_stream_destructor (s : LogStream) (v : String) :
    (s.destruct = some (s.level, s.ss) ↔ s.active = true ∧ s.ss.isEmpty = false) ∧
    (s.destruct = none ↔ s.active = false ∨ s.ss.isEmpty = true) ∧
    (s.active = false → s.append v = s) := by
  obtain ⟨level, ss, active⟩ := s
  cases active <;> cases hss : ss.isEmpty <;>
    simp [LogStream.destruct, LogStream.append, hss]

theorem c7_stream_destructor_witness :
    ((LogStream.destruct ⟨LogLevel.INFO, "x", true⟩ =
        some (LogLevel.INFO, "x") ↔ true = true ∧ "x".isEmpty = false) ∧
     (LogStream.destruct ⟨LogLevel.INFO, "x", true⟩ = none ↔
        true = false ∨ "x".isEmpty = true) ∧
     (true = false → LogStream.append ⟨LogLevel.INFO, "x", true⟩ "y" =
        ⟨LogLevel.INFO, "x", true⟩)) :=
  c7_stream_destructor ⟨LogLevel.INFO, "x", true⟩ "y"

/-- Claim C9: after a second GlobalRegistry init with a different node name,
the singleton returned by instance() is a freshly constructed facade carrying
exactly the second name and default configuration — a min-level change applied
to the prior instance is not preserved. -/
theorem c9_reinit_replaces (n1 n2 : String) (cb1 cb2 : Bool) (L : LogLevel)
    (h : n1 ≠ n2) :
    (GlobalLogger.instance
        (GlobalLogger.init
          (GlobalLogger.modifyInstance (GlobalLogger.init GlobalLogger.startup n1 cb1)
            (fun l => l.setMinLevel L))
          n2 cb2)).2.node_name = n2 ∧
    (GlobalLogger.instance
        (GlobalLogger.init
          (GlobalLogger.modifyInstance (GlobalLogger.init GlobalLogger.startup n1 cb1)
            (fun l => l.setMinLevel L))
          n2 cb2)).2 = mkLogger n2 cb2 ∧
    (GlobalLogger.instance
        (GlobalLogger.init
          (GlobalLogger.modifyInstance (GlobalLogger.init GlobalLogger.startup n1 cb1)
            (fun l => l.setMinLevel L))
          n2 cb2)).2.min_level = LogLevel.DEBUG := by
  simp [GlobalLogger.instance, GlobalLogger.init, GlobalLogger.modifyInstance,
    GlobalLogger.startup, Logger.setMinLevel, mkLogger]

theorem c9_reinit_replaces_witness :
    "node1" ≠ "node2" ∧
    ((GlobalLogger.instance
        (GlobalLogger.init
          (GlobalLogger.modifyInstance
            (GlobalLogger.init GlobalLogger.startup "node1" true)
            (fun l => l.setMinLevel LogLevel.ERROR))
          "node2" false)).2.node_name = "node2" ∧
     (GlobalLogger.instance
        (GlobalLogger.init
          (GlobalLogger.modifyInstance
            (GlobalLogger.init GlobalLogger.startup "node1" true)
            (fun l => l.setMinLevel LogLevel.ERROR))
          "node2" false)).2 = mkLogger "node2" false ∧
     (GlobalLogger.instance
        (GlobalLogger.init
          (GlobalLogger.modifyInstance
            (GlobalLogger.init GlobalLogger.startup "node1" true)
            (fun l => l.setMinLevel LogLevel.ERROR))
          "node2" false)).2.min_level = LogLevel.DEBUG) :=
  ⟨by decide, c9_reinit_replaces "node1" "node2" true false LogLevel.ERROR (by decide)⟩

/-- Claim C1: with both outputs enabled and a callback set, after
setMinLevel(L2) a log call at L1 < L2 yields no console line and no callback
invocation, while a log call at L2 yields a console line and exactly one
callback invocation. -/
theorem c1_min_level_filtering (L1 L2 : LogLevel) (h : L1.toNat < L2.toNat)
    (l : Logger) (hl : l.local_output = true) (hr : l.remote_output = true)
    (hc : l.publish_callback = true) (m1 m2 : String) (tv1 tv2 : Stamp) :
    (((l.setMinLevel L2).log L1 m1 tv1).2.console = none ∧
     ((l.setMinLevel L2).log L1 m1 tv1).2.published = none) ∧
    (((l.setMinLevel L2).log L2 m2 tv2).2.console.isSome = true ∧
     ((l.setMinLevel L2).log L2 m2 tv2).2.published.isSome = true) := by
  constructor
  · simp [Logger.log, Logger.setMinLevel, h]
  · simp [Logger.log, Logger.setMinLevel, Logger.createEntry, Logger.publish,
      hl, hr, hc]

theorem c1_min_level_filtering_witness :
    LogLevel.INFO.toNat < LogLevel.WARN.toNat ∧
    (((((mkLogger "n" true).setMinLevel LogLevel.WARN).log LogLevel.INFO "x"
          ⟨1, 2⟩).2.console = none ∧
      ((((mkLogger "n" true).setMinLevel LogLevel.WARN).log LogLevel.INFO "x"
          ⟨1, 2⟩).2.published = none)) ∧
     ((((mkLogger "n" true).setMinLevel LogLevel.WARN).log LogLevel.WARN "y"
          ⟨3, 4⟩).2.console.isSome = true ∧
      (((mkLogger "n" true).setMinLevel LogLevel.WARN).log LogLevel.WARN "y"
          ⟨3, 4⟩).2.published.isSome = true)) :=
  ⟨by decide,
   c1_min_level_filtering LogLevel.INFO LogLevel.WARN (by decide)
     (mkLogger "n" true) (by decide) (by decide) (by decide) "x" "y" ⟨1, 2⟩ ⟨3, 4⟩⟩

/-- Claim C8: an accepted log call on a logger with remote output enabled but
no transport callback invokes no callback and completes normally (the record
is still created and the sequence counter advances). -/
theorem c8_missing_callback_noop (l : Logger) (level : LogLevel) (m : String)
    (tv : Stamp) (hr : l.remote_output = true) (hc : l.publish_callback = false)
    (ha : l.min_level.toNat ≤ level.toNat) :
    (l.log level m tv).2.published = none ∧
    (l.log level m tv).2.entry.isSome = true ∧
    (l.log level m tv).1 = { l with seq := (l.seq + 1) % 2 ^ 32 } := by
  simp [Logger.log, Logger.createEntry, Logger.publish, hc, Nat.not_lt.mpr ha]

theorem c8_missing_callback_noop_witness :
    ((mkLogger "n" false).setRemoteOutput true).remote_output = true ∧
    ((mkLogger "n" false).setRemoteOutput true).publish_callback = false ∧
    ((mkLogger "n" false).setRemoteOutput true).min_level.toNat ≤
      LogLevel.INFO.toNat ∧
    ((((mkLogger "n" false).setRemoteOutput true).log LogLevel.INFO "x"
        ⟨5, 6⟩).2.published = none ∧
     (((mkLogger "n" false).setRemoteOutput true).log LogLevel.INFO "x"
        ⟨5, 6⟩).2.entry.isSome = true ∧
     (((mkLogger "n" false).setRemoteOutput true).log LogLevel.INFO "x"
        ⟨5, 6⟩).1 =
       { (mkLogger "n" false).setRemoteOutput true with
           seq := (((mkLogger "n" false).setRemoteOutput true).seq + 1) % 2 ^ 32 }) :=
  ⟨by decide, by decide, by decide,
   c8_missing_callback_noop ((mkLogger "n" false).setRemoteOutput true)
     LogLevel.INFO "x" ⟨5, 6⟩ (by decide) (by decide) (by decide)⟩

theorem entrySeqs_runLogs (M : LogLevel) (calls : List (LogLevel × String × Stamp)) :
    ∀ l : Logger, l.min_level = M →
      l.seq + calls.countP (fun c => decide (M.toNat ≤ c.1.toNat)) ≤ 2 ^ 32 →
      entrySeqs (l.runLogs calls).2 =
        List.range' l.seq (calls.countP (fun c => decide (M.toNat ≤ c.1.toNat))) := by
  induction calls with
  | nil => intro l _ _; rfl
  | cons call rest ih =>
    intro l hM h
    show entrySeqs ((l.log call.1 call.2.1 call.2.2).2 ::
        ((l.log call.1 call.2.1 call.2.2).1.runLogs rest).2) = _
    by_cases hacc : call.1.toNat < M.toNat
    · have hif : (if (fun c : LogLevel × String × Stamp =>
          decide (M.toNat ≤ c.1.toNat)) call then 1 else 0) = 0 := by
        simp [Nat.not_le.mpr hacc]
      rw [List.countP_cons, hif, Nat.add_zero] at h ⊢
      rw [Logger.log, hM, if_pos hacc]
      simpa [entrySeqs, List.filterMap_cons] using ih l hM h
    · have hif : (if (fun c : LogLevel × String × Stamp =>
          decide (M.toNat ≤ c.1.toNat)) call then 1 else 0) = 1 := by
        simp [Nat.le_of_not_lt hacc]
      rw [List.countP_cons, hif] at h ⊢
      rw [Logger.log, hM, if_neg hacc]
      by_cases hedge : l.seq + 1 = 2 ^ 32
      · have hzero : rest.countP (fun c => decide (M.toNat ≤ c.1.toNat)) = 0 := by
          omega
        have hbound : (l.seq + 1) % 2 ^ 32 +
            rest.countP (fun c => decide (M.toNat ≤ c.1.toNat)) ≤ 2 ^ 32 := by
          rw [hzero, Nat.add_zero]
          exact Nat.le_of_lt (Nat.mod_lt _ (by norm_num))
        have htail := ih { l with seq := (l.seq + 1) % 2 ^ 32 }
          (by simpa using hM) (by simpa using hbound)
        rw [hzero] at htail ⊢
        simpa [entrySeqs, List.filterMap_cons, Logger.createEntry, List.range']
          using htail
      · have hmod : (l.seq + 1) % 2 ^ 32 = l.seq + 1 :=
          Nat.mod_eq_of_lt (by omega)
        have hbound : (l.seq + 1) % 2 ^ 32 +
            rest.countP (fun c => decide (M.toNat ≤ c.1.toNat)) ≤ 2 ^ 32 := by
          rw [hmod]; omega
        have htail := ih { l with seq := (l.seq + 1) % 2 ^ 32 }
          (by simpa using hM) (by simpa using hbound)
        have hmod' : (l.seq + 1) % 4294967296 = l.seq + 1 := hmod
        simpa [entrySeqs, List.filterMap_cons, Logger.createEntry, List.range', hmod']
          using htail

/-- Claim C2: on one fresh Logger instance, the sequence numbers attached to
the records of N sequential accepted log calls are exactly 0, 1, ..., N-1
(within the uint32 range), with no gaps or repeats, strictly increasing. -/
theorem c2_sequence_numbers (name : String) (cb : Bool)
    (calls : List (LogLevel × String × Stamp)) (h : calls.length ≤ 2 ^ 32) :
    entrySeqs ((mkLogger name cb).runLogs calls).2 = List.range calls.length ∧
    List.Pairwise (· < ·) (entrySeqs ((mkLogger name cb).runLogs calls).2) := by
  have hall : calls.countP
      (fun c => decide (LogLevel.DEBUG.toNat ≤ c.1.toNat)) = calls.length := by
    rw [List.countP_eq_length]
    intro c _
    simp [LogLevel.toNat]
  have hmain := entrySeqs_runLogs LogLevel.DEBUG calls (mkLogger name cb) rfl
    (by rw [hall]; simpa [mkLogger] using h)
  rw [hall] at hmain
  have hzero : (mkLogger name cb).seq = 0 := rfl
  rw [hzero] at hmain
  rw [hmain, ← List.range_eq_range']
  exact ⟨rfl, List.pairwise_lt_range _⟩

theorem c2_sequence_numbers_witness :
    ([(LogLevel.INFO, "a", (⟨0, 0⟩ : Stamp)), (LogLevel.DEBUG, "b", ⟨0, 1⟩),
      (LogLevel.FATAL, "c", ⟨0, 2⟩)].length ≤ 2 ^ 32) ∧
    (entrySeqs ((mkLogger "n" false).runLogs
        [(LogLevel.INFO, "a", ⟨0, 0⟩), (LogLevel.DEBUG, "b", ⟨0, 1⟩),
         (LogLevel.FATAL, "c", ⟨0, 2⟩)]).2 =
      List.range
        [(LogLevel.INFO, "a", (⟨0, 0⟩ : Stamp)), (LogLevel.DEBUG, "b", ⟨0, 1⟩),
         (LogLevel.FATAL, "c", ⟨0, 2⟩)].length ∧
     List.Pairwise (· < ·) (entrySeqs ((mkLogger "n" false).runLogs
        [(LogLevel.INFO, "a", ⟨0, 0⟩), (LogLevel.DEBUG, "b", ⟨0, 1⟩),
         (LogLevel.FATAL, "c", ⟨0, 2⟩)]).2)) :=
  ⟨by norm_num,
   c2_sequence_numbers "n" false
     [(LogLevel.INFO, "a", ⟨0, 0⟩), (LogLevel.DEBUG, "b", ⟨0, 1⟩),
      (LogLevel.FATAL, "c", ⟨0, 2⟩)] (by norm_num)⟩

/-- Claim C4, counterexample: on a concrete INFO entry the console line the
code produces differs from the claimed format — the level field comes out
right-justified and padded with the sticky zero fill ("0INFO"), not
left-justified in spaces ("INFO "). -/
theorem c4_counterexample :
    outputLocal
      { header := { stamp := { sec := 45296, usec := 7 }, seq := 0, frameid := "node" },
        level := LogLevel.INFO, node_name := "node", message := "hello" } ≠
    outputLocalClaimed
      { header := { stamp := { sec := 45296, usec := 7 }, seq := 0, frameid := "node" },
        level := LogLevel.INFO, node_name := "node", message := "hello" } := by
  decide

/-- Claim C4, amended: every console line has the shape
`[HH:MM:SS.UUUUUU] [LEVEL] [node] message` with the microseconds zero-padded
to 6 digits, the LEVEL text wrapped in its level color plus a bold marker and
reset at the closing bracket, but RIGHT-justified in the 5-character field and
padded with the zero fill character left sticky by the microsecond field. -/
theorem c4_amended_format (entry : LogEntry) :
    outputLocal entry = outputLocalAmended entry := by
  simp [outputLocal, outputLocalAmended, OStream.put, OStream.setw, OStream.setfill,
    cerrInit, padLeftZeros, String.append_assoc]

end core
